import Mathlib

/-!
# TranscribePro: the JNI bridge `lib/src/main/jni/whisper/jni.c`

A shallow embedding of the bridge between the managed runtime and the
transcription engine.

* Pointers are addresses (`Nat`); `0` is the null pointer.  The 64-bit ABI is
  modelled: `jlong` and pointers are 64 bits wide, `jint`, `jsize` and `int`
  are 32 bits wide, `long` is 64 bits wide.  Values of the integer types are
  carried as `Int`; the conversions `int → jint` and `long → jlong` done by a
  `return` keep the value, the two pointer casts are written out with
  `% 2^64`.
* `const char *` and `jstring` are `Option String`; `none` is the null
  pointer, respectively the null reference.
* Every function of the engine and of the JNI environment acts on one state
  `σ` of everything outside the bridge (engine, C heap, managed runtime).
  The entry points take the engine and the environment as arguments; the
  engine that `jni.c` itself defines is `mockEngine`.
* Every call that leaves the bridge is recorded, in program order and with
  the value it returned, in the `trace` of the `World`.
-/

set_option linter.unusedVariables false

namespace WhisperJni

/-! ## C and JNI types -/

/-- The null pointer; a pointer is its address, a `Nat`. -/
def NULL : Nat := 0

/-- A `jobject` local reference (an opaque handle). -/
abbrev jobject := Nat

/-- A `jfloatArray` reference (an opaque handle). -/
abbrev jfloatArray := Nat

/-- A `jstring` reference; `none` is the null reference. -/
abbrev jstring := Option String

/-- A `const char *` to a NUL-terminated string; `none` is `NULL`. -/
abbrev CString := Option String

/-- Release mode `JNI_ABORT` of `jni.h`: free the buffer without copying back. -/
def JNI_ABORT : Int := 2

/-- The cast `(jlong) p` of a pointer: the 64-bit pattern read as signed. -/
def jlongOfPtr (p : Nat) : Int :=
  if p % 2 ^ 64 < 2 ^ 63 then ((p % 2 ^ 64 : Nat) : Int)
  else ((p % 2 ^ 64 : Nat) : Int) - 2 ^ 64

/-- The cast `(struct whisper_context *) t` of a `jlong`: the 64-bit pattern as address. -/
def ptrOfJlong (t : Int) : Nat :=
  (t % 2 ^ 64).toNat

/-- Priorities of `android/log.h` used by the two logging macros. -/
inductive Priority where
  | ANDROID_LOG_INFO
  | ANDROID_LOG_WARN
  deriving DecidableEq, Repr

/-- The log tag, `#define TAG "JNI"`. -/
def TAG : String := "JNI"

/-- The mock `struct whisper_full_params`. -/
structure whisper_full_params where
  dummy : Int
  deriving DecidableEq, Repr

/-! ## Calls leaving the bridge -/

/-- One call made by the bridge, with its arguments and the value returned. -/
inductive Event where
  | log (prio : Priority) (tag : String) (msg : String)
  | whisper_init (loader : Nat) (ret : Nat)
  | whisper_free (ctx : Nat)
  | whisper_full_default_params (strategy : Int) (ret : whisper_full_params)
  | whisper_reset_timings (ctx : Nat)
  | whisper_full (ctx : Nat) (params : whisper_full_params) (samples : Nat)
      (n_samples : Int) (ret : Int)
  | whisper_print_timings (ctx : Nat)
  | whisper_full_n_segments (ctx : Nat) (ret : Int)
  | whisper_full_get_segment_text (ctx : Nat) (i : Int) (ret : CString)
  | whisper_full_get_segment_t0 (ctx : Nat) (i : Int) (ret : Int)
  | whisper_full_get_segment_t1 (ctx : Nat) (i : Int) (ret : Int)
  | whisper_print_system_info (ret : CString)
  | whisper_bench_memcpy_str (n_threads : Int) (ret : CString)
  | whisper_bench_ggml_mul_mat_str (n_threads : Int) (ret : CString)
  | GetFloatArrayElements (array : jfloatArray) (isCopy : Nat) (ret : Nat)
  | GetArrayLength (array : jfloatArray) (ret : Int)
  | ReleaseFloatArrayElements (array : jfloatArray) (elems : Nat) (mode : Int)
  | NewStringUTF (bytes : CString) (ret : jstring)
  deriving DecidableEq, Repr

/-- The engine's C API as the bridge calls it. -/
structure Engine (σ : Type) where
  whisper_init : σ → Nat → Nat × σ
  whisper_free : σ → Nat → σ
  whisper_full_default_params : σ → Int → whisper_full_params × σ
  whisper_reset_timings : σ → Nat → σ
  whisper_full : σ → Nat → whisper_full_params → Nat → Int → Int × σ
  whisper_print_timings : σ → Nat → σ
  whisper_full_n_segments : σ → Nat → Int × σ
  whisper_full_get_segment_text : σ → Nat → Int → CString × σ
  whisper_full_get_segment_t0 : σ → Nat → Int → Int × σ
  whisper_full_get_segment_t1 : σ → Nat → Int → Int × σ
  whisper_print_system_info : σ → CString × σ
  whisper_bench_memcpy_str : σ → Int → CString × σ
  whisper_bench_ggml_mul_mat_str : σ → Int → CString × σ

/-- The functions of `JNIEnv` the bridge calls. -/
structure JNIEnv (σ : Type) where
  GetFloatArrayElements : σ → jfloatArray → Nat → Nat × σ
  GetArrayLength : σ → jfloatArray → Int × σ
  ReleaseFloatArrayElements : σ → jfloatArray → Nat → Int → σ
  NewStringUTF : σ → CString → jstring × σ

/-- The state outside the bridge and the calls made so far, oldest first. -/
structure World (σ : Type) where
  ext : σ
  trace : List Event

/-- Record one call. -/
def World.emit {σ : Type} (w : World σ) (e : Event) : World σ :=
  { w with trace := w.trace ++ [e] }

/-- The macro `LOGI(...)`: `__android_log_print(ANDROID_LOG_INFO, TAG, ...)`. -/
def LOGI {σ : Type} (w : World σ) (msg : String) : World σ :=
  w.emit (Event.log Priority.ANDROID_LOG_INFO TAG msg)

/-- The macro `LOGW(...)`: `__android_log_print(ANDROID_LOG_WARN, TAG, ...)`. -/
def LOGW {σ : Type} (w : World σ) (msg : String) : World σ :=
  w.emit (Event.log Priority.ANDROID_LOG_WARN TAG msg)

/-- The conversion `%d` of an `int` argument. -/
def fmt_d (i : Int) : String := toString i

/-- A call that returns a value: run it on the outside state and record it. -/
def World.call {σ α : Type} (w : World σ) (f : σ → α × σ) (e : α → Event) : α × World σ :=
  ((f w.ext).1, { ext := (f w.ext).2, trace := w.trace ++ [e (f w.ext).1] })

/-- A call that returns `void`: run it on the outside state and record it. -/
def World.exec {σ : Type} (w : World σ) (f : σ → σ) (e : Event) : World σ :=
  { ext := f w.ext, trace := w.trace ++ [e] }

/-! ## The C heap and the mock engine of `jni.c` -/

/-- The C heap: the addresses of the live allocations, the addresses the
allocator will propose to the coming `malloc` calls, and whether `free` has
been given a pointer that is not a live allocation (undefined behaviour). -/
structure Heap where
  live : Finset Nat
  picks : List Nat
  ub : Bool
  deriving DecidableEq

/-- `malloc(size)`: the next address the allocator proposes when it is
non-null, below `2^64` and, as the C standard requires of a successful
`malloc`, not the address of a live allocation; `NULL` otherwise. -/
def malloc (h : Heap) (size : Nat) : Nat × Heap :=
  match h.picks with
  | [] => (NULL, h)
  | p :: rest =>
    if p ≠ 0 ∧ p < 2 ^ 64 ∧ p ∉ h.live then
      (p, { h with live := insert p h.live, picks := rest })
    else
      (NULL, { h with picks := rest })

/-- `free(p)`: nothing for `NULL`, the end of the allocation at `p`, and
undefined behaviour when `p` is not a live allocation. -/
def free (h : Heap) (p : Nat) : Heap :=
  if p = 0 then h
  else if p ∈ h.live then { h with live := h.live.erase p }
  else { h with ub := true }

/-- `sizeof(whisper_context)`: one `int`. -/
def sizeof_whisper_context : Nat := 4

/-- `whisper_context* whisper_init(void* loader)`. -/
def whisper_init (h : Heap) (loader : Nat) : Nat × Heap :=
  malloc h sizeof_whisper_context

/-- `whisper_context* whisper_init_from_file_with_params(const char* path, void* params)`. -/
def whisper_init_from_file_with_params (h : Heap) (path : CString) (params : Nat) :
    Nat × Heap :=
  malloc h sizeof_whisper_context

/-- `whisper_context* whisper_init_with_params(void* loader, void* params)`. -/
def whisper_init_with_params (h : Heap) (loader : Nat) (params : Nat) : Nat × Heap :=
  malloc h sizeof_whisper_context

/-- `void whisper_free(whisper_context* ctx)`. -/
def whisper_free (h : Heap) (ctx : Nat) : Heap :=
  if ctx ≠ 0 then free h ctx else h

/-- `struct whisper_full_params whisper_full_default_params(int strategy)`. -/
def whisper_full_default_params (strategy : Int) : whisper_full_params :=
  { dummy := strategy }

/-- `void whisper_reset_timings(whisper_context* ctx)`: does nothing. -/
def whisper_reset_timings (h : Heap) (ctx : Nat) : Heap := h

/-- `int whisper_full(ctx, params, samples, n_samples)`. -/
def whisper_full (ctx : Nat) (params : whisper_full_params) (samples : Nat)
    (n_samples : Int) : Int := 0

/-- `void whisper_print_timings(whisper_context* ctx)`: does nothing. -/
def whisper_print_timings (h : Heap) (ctx : Nat) : Heap := h

/-- `int whisper_full_n_segments(whisper_context* ctx)`. -/
def whisper_full_n_segments (ctx : Nat) : Int := 1

/-- `const char* whisper_full_get_segment_text(whisper_context* ctx, int i)`. -/
def whisper_full_get_segment_text (ctx : Nat) (i : Int) : CString :=
  some "Mocked transcription"

/-- `long whisper_full_get_segment_t0(whisper_context* ctx, int i)`. -/
def whisper_full_get_segment_t0 (ctx : Nat) (i : Int) : Int := 0

/-- `long whisper_full_get_segment_t1(whisper_context* ctx, int i)`. -/
def whisper_full_get_segment_t1 (ctx : Nat) (i : Int) : Int := 100

/-- `const char* whisper_print_system_info()`. -/
def whisper_print_system_info : CString := some "Mocked system info"

/-- `const char* whisper_bench_memcpy_str(int n_threads)`. -/
def whisper_bench_memcpy_str (n_threads : Int) : CString :=
  some "Mocked memcpy benchmark"

/-- `const char* whisper_bench_ggml_mul_mat_str(int n_threads)`. -/
def whisper_bench_ggml_mul_mat_str (n_threads : Int) : CString :=
  some "Mocked GGML matrix multiplication benchmark"

/-- `void* whisper_context_default_params()`. -/
def whisper_context_default_params : Nat := NULL

/-- The engine that `jni.c` defines, lines 25 to 87, over the C heap. -/
def mockEngine : Engine Heap where
  whisper_init := whisper_init
  whisper_free := whisper_free
  whisper_full_default_params := fun h strategy => (whisper_full_default_params strategy, h)
  whisper_reset_timings := whisper_reset_timings
  whisper_full := fun h ctx params samples n => (whisper_full ctx params samples n, h)
  whisper_print_timings := whisper_print_timings
  whisper_full_n_segments := fun h ctx => (whisper_full_n_segments ctx, h)
  whisper_full_get_segment_text := fun h ctx i => (whisper_full_get_segment_text ctx i, h)
  whisper_full_get_segment_t0 := fun h ctx i => (whisper_full_get_segment_t0 ctx i, h)
  whisper_full_get_segment_t1 := fun h ctx i => (whisper_full_get_segment_t1 ctx i, h)
  whisper_print_system_info := fun h => (whisper_print_system_info, h)
  whisper_bench_memcpy_str := fun h n => (whisper_bench_memcpy_str n, h)
  whisper_bench_ggml_mul_mat_str := fun h n => (whisper_bench_ggml_mul_mat_str n, h)

/-! ## The entry points -/

/-- `initContextFromInputStream(env, thiz, input_stream)`, lines 95 to 104. -/
def Java_com_whispercpp_whisper_WhisperLib_00024Companion_initContextFromInputStream
    {σ : Type} (E : Engine σ) (env : JNIEnv σ) (w : World σ)
    (thiz : jobject) (input_stream : jobject) : Int × World σ :=
  let w := LOGI w "Initializing context from input stream"
  let (context, w) := w.call (fun s => E.whisper_init s NULL) (Event.whisper_init NULL)
  (jlongOfPtr context, w)

/-- `initContextFromAsset(env, thiz, assetManager, asset_path_str)`, lines 106 to 115. -/
def Java_com_whispercpp_whisper_WhisperLib_00024Companion_initContextFromAsset
    {σ : Type} (E : Engine σ) (env : JNIEnv σ) (w : World σ)
    (thiz : jobject) (assetManager : jobject) (asset_path_str : jstring) : Int × World σ :=
  let w := LOGI w "Initializing context from asset"
  let (context, w) := w.call (fun s => E.whisper_init s NULL) (Event.whisper_init NULL)
  (jlongOfPtr context, w)

/-- `initContext(env, thiz, model_path_str)`, lines 117 to 126. -/
def Java_com_whispercpp_whisper_WhisperLib_00024Companion_initContext
    {σ : Type} (E : Engine σ) (env : JNIEnv σ) (w : World σ)
    (thiz : jobject) (model_path_str : jstring) : Int × World σ :=
  let w := LOGI w "Initializing context from file"
  let (context, w) := w.call (fun s => E.whisper_init s NULL) (Event.whisper_init NULL)
  (jlongOfPtr context, w)

/-- `freeContext(env, thiz, context_ptr)`, lines 128 to 137. -/
def Java_com_whispercpp_whisper_WhisperLib_00024Companion_freeContext
    {σ : Type} (E : Engine σ) (env : JNIEnv σ) (w : World σ)
    (thiz : jobject) (context_ptr : Int) : World σ :=
  let w := LOGI w "Freeing context"
  let context := ptrOfJlong context_ptr
  w.exec (fun s => E.whisper_free s context) (Event.whisper_free context)

/-- `fullTranscribe(env, thiz, context_ptr, num_threads, audio_data)`, lines 139 to 161. -/
def Java_com_whispercpp_whisper_WhisperLib_00024Companion_fullTranscribe
    {σ : Type} (E : Engine σ) (env : JNIEnv σ) (w : World σ)
    (thiz : jobject) (context_ptr : Int) (num_threads : Int) (audio_data : jfloatArray) :
    World σ :=
  let w := LOGI w "Running full transcribe"
  let context := ptrOfJlong context_ptr
  let (audio_data_arr, w) :=
    w.call (fun s => env.GetFloatArrayElements s audio_data NULL)
      (Event.GetFloatArrayElements audio_data NULL)
  let (audio_data_length, w) :=
    w.call (fun s => env.GetArrayLength s audio_data) (Event.GetArrayLength audio_data)
  let (params, w) :=
    w.call (fun s => E.whisper_full_default_params s 0) (Event.whisper_full_default_params 0)
  let w := w.exec (fun s => E.whisper_reset_timings s context)
    (Event.whisper_reset_timings context)
  let w := LOGI w "About to run whisper_full"
  let (status, w) :=
    w.call (fun s => E.whisper_full s context params audio_data_arr audio_data_length)
      (Event.whisper_full context params audio_data_arr audio_data_length)
  let w :=
    if status ≠ 0 then
      LOGI w "Failed to run the model"
    else
      w.exec (fun s => E.whisper_print_timings s context) (Event.whisper_print_timings context)
  w.exec (fun s => env.ReleaseFloatArrayElements s audio_data audio_data_arr JNI_ABORT)
    (Event.ReleaseFloatArrayElements audio_data audio_data_arr JNI_ABORT)

/-- `getTextSegmentCount(env, thiz, context_ptr)`, lines 163 to 172. -/
def Java_com_whispercpp_whisper_WhisperLib_00024Companion_getTextSegmentCount
    {σ : Type} (E : Engine σ) (env : JNIEnv σ) (w : World σ)
    (thiz : jobject) (context_ptr : Int) : Int × World σ :=
  let w := LOGI w "Getting text segment count"
  let context := ptrOfJlong context_ptr
  w.call (fun s => E.whisper_full_n_segments s context) (Event.whisper_full_n_segments context)

/-- `getTextSegment(env, thiz, context_ptr, index)`, lines 174 to 184. -/
def Java_com_whispercpp_whisper_WhisperLib_00024Companion_getTextSegment
    {σ : Type} (E : Engine σ) (env : JNIEnv σ) (w : World σ)
    (thiz : jobject) (context_ptr : Int) (index : Int) : jstring × World σ :=
  let w := LOGI w ("Getting text segment " ++ fmt_d index)
  let context := ptrOfJlong context_ptr
  let (text, w) :=
    w.call (fun s => E.whisper_full_get_segment_text s context index)
      (Event.whisper_full_get_segment_text context index)
  let (string, w) := w.call (fun s => env.NewStringUTF s text) (Event.NewStringUTF text)
  (string, w)

/-- `getTextSegmentT0(env, thiz, context_ptr, index)`, lines 186 to 194. -/
def Java_com_whispercpp_whisper_WhisperLib_00024Companion_getTextSegmentT0
    {σ : Type} (E : Engine σ) (env : JNIEnv σ) (w : World σ)
    (thiz : jobject) (context_ptr : Int) (index : Int) : Int × World σ :=
  let w := LOGI w ("Getting text segment T0 for index " ++ fmt_d index)
  let context := ptrOfJlong context_ptr
  w.call (fun s => E.whisper_full_get_segment_t0 s context index)
    (Event.whisper_full_get_segment_t0 context index)

/-- `getTextSegmentT1(env, thiz, context_ptr, index)`, lines 196 to 204. -/
def Java_com_whispercpp_whisper_WhisperLib_00024Companion_getTextSegmentT1
    {σ : Type} (E : Engine σ) (env : JNIEnv σ) (w : World σ)
    (thiz : jobject) (context_ptr : Int) (index : Int) : Int × World σ :=
  let w := LOGI w ("Getting text segment T1 for index " ++ fmt_d index)
  let context := ptrOfJlong context_ptr
  w.call (fun s => E.whisper_full_get_segment_t1 s context index)
    (Event.whisper_full_get_segment_t1 context index)

/-- `getSystemInfo(env, thiz)`, lines 206 to 216. -/
def Java_com_whispercpp_whisper_WhisperLib_00024Companion_getSystemInfo
    {σ : Type} (E : Engine σ) (env : JNIEnv σ) (w : World σ)
    (thiz : jobject) : jstring × World σ :=
  let w := LOGI w "Getting system info"
  let (sysinfo, w) :=
    w.call (fun s => E.whisper_print_system_info s) Event.whisper_print_system_info
  let (string, w) := w.call (fun s => env.NewStringUTF s sysinfo) (Event.NewStringUTF sysinfo)
  (string, w)

/-- `benchMemcpy(env, thiz, n_threads)`, lines 218 to 227. -/
def Java_com_whispercpp_whisper_WhisperLib_00024Companion_benchMemcpy
    {σ : Type} (E : Engine σ) (env : JNIEnv σ) (w : World σ)
    (thiz : jobject) (n_threads : Int) : jstring × World σ :=
  let w := LOGI w ("Running memcpy benchmark with " ++ fmt_d n_threads ++ " threads")
  let (bench_ggml_memcpy, w) :=
    w.call (fun s => E.whisper_bench_memcpy_str s n_threads)
      (Event.whisper_bench_memcpy_str n_threads)
  let (string, w) :=
    w.call (fun s => env.NewStringUTF s bench_ggml_memcpy) (Event.NewStringUTF bench_ggml_memcpy)
  (string, w)

/-- `benchGgmlMulMat(env, thiz, n_threads)`, lines 229 to 238. -/
def Java_com_whispercpp_whisper_WhisperLib_00024Companion_benchGgmlMulMat
    {σ : Type} (E : Engine σ) (env : JNIEnv σ) (w : World σ)
    (thiz : jobject) (n_threads : Int) : jstring × World σ :=
  let w := LOGI w
    ("Running GGML matrix multiplication benchmark with " ++ fmt_d n_threads ++ " threads")
  let (bench_ggml_mul_mat, w) :=
    w.call (fun s => E.whisper_bench_ggml_mul_mat_str s n_threads)
      (Event.whisper_bench_ggml_mul_mat_str n_threads)
  let (string, w) :=
    w.call (fun s => env.NewStringUTF s bench_ggml_mul_mat)
      (Event.NewStringUTF bench_ggml_mul_mat)
  (string, w)

/-! ## Reading a trace -/

/-- Is the event a call of `NewStringUTF`. -/
def Event.isNewString : Event → Bool
  | .NewStringUTF _ _ => true
  | _ => false

/-- Is the event a call of a function of the engine. -/
def Event.isEngine : Event → Bool
  | .log _ _ _ => false
  | .GetFloatArrayElements _ _ _ => false
  | .GetArrayLength _ _ => false
  | .ReleaseFloatArrayElements _ _ _ => false
  | .NewStringUTF _ _ => false
  | _ => true

/-- Is the event one of `whisper_reset_timings`, `whisper_full`, `whisper_print_timings`. -/
def Event.isTimingOrRun : Event → Bool
  | .whisper_reset_timings _ => true
  | .whisper_full _ _ _ _ _ => true
  | .whisper_print_timings _ => true
  | _ => false

/-- An `INFO` line with the bridge's tag. -/
def info (msg : String) : Event :=
  Event.log Priority.ANDROID_LOG_INFO TAG msg

/-! ## Engines and environments for examples -/

/-- A JNI environment for examples: pinning yields `buf`, the array has `len`
elements, releasing changes nothing, and `NewStringUTF` yields a managed
string of the same text, the null reference for `NULL`. -/
def exampleEnv {σ : Type} (buf : Nat) (len : Int) : JNIEnv σ where
  GetFloatArrayElements := fun s _ _ => (buf, s)
  GetArrayLength := fun s _ => (len, s)
  ReleaseFloatArrayElements := fun s _ _ _ => s
  NewStringUTF := fun s bytes => (bytes, s)

/-- The mock engine with a run that returns `status`. -/
def engineWithStatus (status : Int) : Engine Heap :=
  { mockEngine with whisper_full := fun h _ _ _ _ => (status, h) }

/-- The mock engine with every string absent. -/
def engineWithAbsentStrings : Engine Heap :=
  { mockEngine with
    whisper_full_get_segment_text := fun h _ _ => (none, h)
    whisper_print_system_info := fun h => (none, h)
    whisper_bench_memcpy_str := fun h _ => (none, h)
    whisper_bench_ggml_mul_mat_str := fun h _ => (none, h) }

/-- The segments of scenario S1: `("hello", 0, 50)` and `("world", 50, 100)`. -/
def segmentsS1 : List (String × Int × Int) :=
  [("hello", 0, 50), ("world", 50, 100)]

/-- The fake engine of scenario S1: the segment accessors read `segmentsS1`. -/
def fakeEngineS1 : Engine Heap :=
  { mockEngine with
    whisper_full_n_segments := fun h _ => ((segmentsS1.length : Int), h)
    whisper_full_get_segment_text := fun h _ i =>
      (if 0 ≤ i then (segmentsS1.get? i.toNat).map (fun x => x.1) else none, h)
    whisper_full_get_segment_t0 := fun h _ i =>
      (if 0 ≤ i then ((segmentsS1.get? i.toNat).map (fun x => x.2.1)).getD 0 else 0, h)
    whisper_full_get_segment_t1 := fun h _ i =>
      (if 0 ≤ i then ((segmentsS1.get? i.toNat).map (fun x => x.2.2)).getD 0 else 0, h) }

/-- The empty heap whose allocator proposes the addresses `picks`. -/
def heapWith (picks : List Nat) : Heap :=
  { live := ∅, picks := picks, ub := false }

/-- A world with no calls made yet. -/
def World.start {σ : Type} (s : σ) : World σ :=
  { ext := s, trace := [] }

/-! ## Sequences of initializer and free calls -/

/-- The three initializers with their source-specific arguments. -/
inductive InitCall where
  | fromInputStream (input_stream : jobject)
  | fromAsset (assetManager : jobject) (asset_path_str : jstring)
  | fromPath (model_path_str : jstring)

/-- Call the entry point an `InitCall` names. -/
def InitCall.run {σ : Type} (E : Engine σ) (env : JNIEnv σ) (w : World σ) (thiz : jobject) :
    InitCall → Int × World σ
  | .fromInputStream input_stream =>
    Java_com_whispercpp_whisper_WhisperLib_00024Companion_initContextFromInputStream
      E env w thiz input_stream
  | .fromAsset assetManager asset_path_str =>
    Java_com_whispercpp_whisper_WhisperLib_00024Companion_initContextFromAsset
      E env w thiz assetManager asset_path_str
  | .fromPath model_path_str =>
    Java_com_whispercpp_whisper_WhisperLib_00024Companion_initContext
      E env w thiz model_path_str

/-- The operation name an initializer writes to the trace. -/
def InitCall.line : InitCall → String
  | .fromInputStream _ => "Initializing context from input stream"
  | .fromAsset _ _ => "Initializing context from asset"
  | .fromPath _ => "Initializing context from file"

/-- One call by which a managed caller creates or frees a context. -/
inductive LifecycleCall where
  | init (thiz : jobject) (c : InitCall)
  | free (thiz : jobject) (context_ptr : Int)

/-- Make the calls in order; the result holds the tokens the initializers
returned, oldest first, and the world after the last call. -/
def runLifecycle {σ : Type} (E : Engine σ) (env : JNIEnv σ) :
    World σ → List LifecycleCall → List Int × World σ
  | w, [] => ([], w)
  | w, .init thiz c :: rest =>
    ((c.run E env w thiz).1 :: (runLifecycle E env (c.run E env w thiz).2 rest).1,
      (runLifecycle E env (c.run E env w thiz).2 rest).2)
  | w, .free thiz context_ptr :: rest =>
    runLifecycle E env
      (Java_com_whispercpp_whisper_WhisperLib_00024Companion_freeContext E env w thiz context_ptr) rest

/-- Make init/free pairs in order: each initializer is followed by the
`freeContext` of the token it returned. -/
def runPairs {σ : Type} (E : Engine σ) (env : JNIEnv σ) :
    World σ → List (jobject × InitCall) → World σ
  | w, [] => w
  | w, (thiz, c) :: rest =>
    runPairs E env
      (Java_com_whispercpp_whisper_WhisperLib_00024Companion_freeContext E env (c.run E env w thiz).2 thiz (c.run E env w thiz).1) rest

/-- The tokens given to `freeContext` by a sequence of calls, oldest first. -/
def freedTokens : List LifecycleCall → List Int
  | [] => []
  | .init _ _ :: rest => freedTokens rest
  | .free _ context_ptr :: rest => context_ptr :: freedTokens rest

/-- Membership of an address in a set of live allocations, as 0 or 1. -/
def liveCount (live : Finset Nat) (a : Nat) : Int :=
  if a ∈ live then 1 else 0

/-- An interleaving for examples: two initializers, then the free of the
first token, then the free of the second. -/
def exampleLifecycle : List LifecycleCall :=
  [LifecycleCall.init 0 (InitCall.fromInputStream 1),
   LifecycleCall.init 0 (InitCall.fromPath (some "ggml-tiny.bin")),
   LifecycleCall.free 0 4096,
   LifecycleCall.free 0 8192]

/-! ## The calls of `fullTranscribe` -/

/-- What one invocation of `fullTranscribe` does to the outside state, next
to the calls it records: the length is read in the state the pin left, the
parameter block is built in the state after that, the run is applied to the
state the reset left, and the final state is the one
`ReleaseFloatArrayElements` returns, applied after the print (status zero)
or directly after the run (status non-zero). -/
theorem fullTranscribe_effect {σ : Type} (E : Engine σ) (env : JNIEnv σ) (w : World σ)
    (thiz : jobject) (context_ptr num_threads : Int) (audio_data : jfloatArray) :
    ∃ (n : Int) (params : whisper_full_params) (status : Int) (s2 s3 s5 : σ),
      env.GetArrayLength (env.GetFloatArrayElements w.ext audio_data NULL).2 audio_data
        = (n, s2)
      ∧ E.whisper_full_default_params s2 0 = (params, s3)
      ∧ E.whisper_full (E.whisper_reset_timings s3 (ptrOfJlong context_ptr))
          (ptrOfJlong context_ptr) params
          (env.GetFloatArrayElements w.ext audio_data NULL).1 n = (status, s5)
      ∧ (Java_com_whispercpp_whisper_WhisperLib_00024Companion_fullTranscribe E env w thiz context_ptr num_threads audio_data).ext
        = env.ReleaseFloatArrayElements
            (if status ≠ 0 then s5
              else E.whisper_print_timings s5 (ptrOfJlong context_ptr))
            audio_data (env.GetFloatArrayElements w.ext audio_data NULL).1 JNI_ABORT
      ∧ (Java_com_whispercpp_whisper_WhisperLib_00024Companion_fullTranscribe E env w thiz context_ptr num_threads audio_data).trace
        = w.trace ++
          ([info "Running full transcribe",
            Event.GetFloatArrayElements audio_data NULL
              (env.GetFloatArrayElements w.ext audio_data NULL).1,
            Event.GetArrayLength audio_data n,
            Event.whisper_full_default_params 0 params,
            Event.whisper_reset_timings (ptrOfJlong context_ptr),
            info "About to run whisper_full",
            Event.whisper_full (ptrOfJlong context_ptr) params
              (env.GetFloatArrayElements w.ext audio_data NULL).1 n status]
          ++ (if status ≠ 0 then [info "Failed to run the model"]
              else [Event.whisper_print_timings (ptrOfJlong context_ptr)])
          ++ [Event.ReleaseFloatArrayElements audio_data
                (env.GetFloatArrayElements w.ext audio_data NULL).1 JNI_ABORT]) := by
  let r1 := env.GetFloatArrayElements w.ext audio_data NULL
  let r2 := env.GetArrayLength r1.2 audio_data
  let r3 := E.whisper_full_default_params r2.2 0
  let s4 := E.whisper_reset_timings r3.2 (ptrOfJlong context_ptr)
  let r5 := E.whisper_full s4 (ptrOfJlong context_ptr) r3.1 r1.1 r2.1
  refine ⟨r2.1, r3.1, r5.1, r2.2, r3.2, r5.2, rfl, rfl, rfl, ?_, ?_⟩
  · simp only [Java_com_whispercpp_whisper_WhisperLib_00024Companion_fullTranscribe,
      World.call, World.exec, LOGI, World.emit, r1, r2, r3, s4, r5]
    split_ifs <;> rfl
  · simp only [Java_com_whispercpp_whisper_WhisperLib_00024Companion_fullTranscribe,
      World.call, World.exec, LOGI, World.emit, info, r1, r2, r3, s4, r5]
    split_ifs <;> simp

/-- The calls of `fullTranscribe` when the run fails with status 1, on the
token 4096 and an array of 3 samples pinned at 8192: no `print_timings`, and
the release of the pinned array is still the last call. -/
theorem fullTranscribe_failing_run_example :
    (Java_com_whispercpp_whisper_WhisperLib_00024Companion_fullTranscribe (engineWithStatus 1) (exampleEnv 8192 3)
        (World.start (heapWith [])) 0 4096 4 7).trace
      = [info "Running full transcribe",
         Event.GetFloatArrayElements 7 NULL 8192,
         Event.GetArrayLength 7 3,
         Event.whisper_full_default_params 0 { dummy := 0 },
         Event.whisper_reset_timings 4096,
         info "About to run whisper_full",
         Event.whisper_full 4096 { dummy := 0 } 8192 3 1,
         info "Failed to run the model",
         Event.ReleaseFloatArrayElements 7 8192 JNI_ABORT] := by
  rfl

/-! ## Pinning and releasing the samples -/

/-- C9: in every invocation of `fullTranscribe` the calls of
`whisper_reset_timings`, `whisper_full` and `whisper_print_timings` are, in
order: the reset on the resolved context, one run on that context, and the
print on that context exactly when the run returned zero.  The only other
engine call is `whisper_full_default_params`, before them.  The calls act
on the outside state in that order: the run is applied to the state the
reset left and returns the status, and the print is applied to the state
the run left exactly when the status is zero. -/
theorem fullTranscribe_reset_run_print_order {σ : Type} (E : Engine σ)
    (env : JNIEnv σ) (w : World σ) (thiz : jobject) (context_ptr num_threads : Int)
    (audio_data : jfloatArray) :
    ∃ (evs : List Event) (buf : Nat) (n : Int) (params : whisper_full_params)
      (status : Int),
      (Java_com_whispercpp_whisper_WhisperLib_00024Companion_fullTranscribe E env w thiz
          context_ptr num_threads audio_data).trace = w.trace ++ evs
      ∧ evs.filter Event.isTimingOrRun
          = [Event.whisper_reset_timings (ptrOfJlong context_ptr),
             Event.whisper_full (ptrOfJlong context_ptr) params buf n status]
            ++ (if status = 0 then [Event.whisper_print_timings (ptrOfJlong context_ptr)]
                else [])
      ∧ evs.filter Event.isEngine
          = Event.whisper_full_default_params 0 params :: evs.filter Event.isTimingOrRun
      ∧ ∃ (s3 s5 : σ),
          E.whisper_full (E.whisper_reset_timings s3 (ptrOfJlong context_ptr))
              (ptrOfJlong context_ptr) params buf n = (status, s5)
          ∧ (Java_com_whispercpp_whisper_WhisperLib_00024Companion_fullTranscribe E env w thiz context_ptr num_threads audio_data).ext
            = env.ReleaseFloatArrayElements
                (if status = 0 then E.whisper_print_timings s5 (ptrOfJlong context_ptr)
                  else s5)
                audio_data buf JNI_ABORT := by
  obtain ⟨n, params, status, s2, s3, s5, _, _, hrun, hext, h⟩ :=
    fullTranscribe_effect E env w thiz context_ptr num_threads audio_data
  refine ⟨_, (env.GetFloatArrayElements w.ext audio_data NULL).1, n, params, status, h,
    ?_, ?_, ⟨s3, s5, hrun, ?_⟩⟩
  · by_cases hs : status = 0 <;> simp [hs, Event.isTimingOrRun, info]
  · by_cases hs : status = 0 <;> simp [hs, Event.isTimingOrRun, Event.isEngine, info]
  · rw [hext]
    by_cases hs : status = 0 <;> simp [hs]

/-- A pointer of the 64-bit ABI casts to the token zero exactly when it is null. -/
theorem jlongOfPtr_eq_zero_iff (p : Nat) (hp : p < 2 ^ 64) : jlongOfPtr p = 0 ↔ p = 0 := by
  unfold jlongOfPtr
  rw [Nat.mod_eq_of_lt hp]
  split_ifs with h
  · omega
  · constructor <;> intro h1 <;> omega

/-- Casting a pointer of the 64-bit ABI to a token and back gives the pointer. -/
theorem ptrOfJlong_jlongOfPtr (p : Nat) (hp : p < 2 ^ 64) : ptrOfJlong (jlongOfPtr p) = p := by
  unfold jlongOfPtr ptrOfJlong
  rw [Nat.mod_eq_of_lt hp]
  split_ifs with h
  · omega
  · have hmod : ((p : Int) - 2 ^ 64) % 2 ^ 64 = p := by omega
    rw [hmod]; simp

/-- What an initializer does: one trace line, one `whisper_init(NULL)`, the cast. -/
theorem InitCall.run_eq {σ : Type} (E : Engine σ) (env : JNIEnv σ) (w : World σ)
    (thiz : jobject) (c : InitCall) :
    c.run E env w thiz
      = (jlongOfPtr (E.whisper_init w.ext NULL).1,
         { ext := (E.whisper_init w.ext NULL).2,
           trace := w.trace ++ [info c.line,
             Event.whisper_init NULL (E.whisper_init w.ext NULL).1] }) := by
  cases c <;>
    simp [InitCall.run, InitCall.line, info, LOGI, World.emit, World.call,
      Java_com_whispercpp_whisper_WhisperLib_00024Companion_initContextFromInputStream,
      Java_com_whispercpp_whisper_WhisperLib_00024Companion_initContextFromAsset,
      Java_com_whispercpp_whisper_WhisperLib_00024Companion_initContext]

/-- C3: each of the three initializers, whatever its source-specific
argument, calls `whisper_init` once, with the null loader, and returns the
context it gets cast to `jlong`: the token is zero exactly when the engine
returned no context, and casts back to the address of the context. -/
theorem init_entry_points_return_engine_context {σ : Type} (E : Engine σ)
    (env : JNIEnv σ) (w : World σ) (thiz : jobject) (c : InitCall)
    (hptr : (E.whisper_init w.ext NULL).1 < 2 ^ 64) :
    (c.run E env w thiz).2.trace.filter Event.isEngine
        = w.trace.filter Event.isEngine
          ++ [Event.whisper_init NULL (E.whisper_init w.ext NULL).1]
    ∧ (c.run E env w thiz).2.ext = (E.whisper_init w.ext NULL).2
    ∧ (c.run E env w thiz).1 = jlongOfPtr (E.whisper_init w.ext NULL).1
    ∧ ((c.run E env w thiz).1 = 0 ↔ (E.whisper_init w.ext NULL).1 = NULL)
    ∧ ptrOfJlong (c.run E env w thiz).1 = (E.whisper_init w.ext NULL).1 := by
  rw [InitCall.run_eq]
  refine ⟨?_, rfl, rfl, ?_, ?_⟩
  · simp [Event.isEngine, info]
  · exact jlongOfPtr_eq_zero_iff _ hptr
  · exact ptrOfJlong_jlongOfPtr _ hptr

/-- Witness of `init_entry_points_return_engine_context`: the engine of
`jni.c` on a heap whose allocator proposes the address 4096. -/
theorem init_entry_points_return_engine_context_witness :
    (mockEngine.whisper_init (World.start (heapWith [4096])).ext NULL).1 < 2 ^ 64
    ∧ (((InitCall.fromPath (some "ggml-tiny.bin")).run mockEngine (exampleEnv 0 0)
          (World.start (heapWith [4096])) 0).1 = 0
        ↔ (mockEngine.whisper_init (World.start (heapWith [4096])).ext NULL).1 = NULL)
    ∧ ptrOfJlong ((InitCall.fromPath (some "ggml-tiny.bin")).run mockEngine (exampleEnv 0 0)
          (World.start (heapWith [4096])) 0).1
        = (mockEngine.whisper_init (World.start (heapWith [4096])).ext NULL).1 :=
  ⟨by decide,
    (init_entry_points_return_engine_context mockEngine (exampleEnv 0 0)
      (World.start (heapWith [4096])) 0 (InitCall.fromPath (some "ggml-tiny.bin"))
      (by decide)).2.2.2⟩

/-! ## The accessors and the diagnostics -/

/-- What `freeContext` does: one trace line, one `whisper_free` on the cast token. -/
theorem freeContext_eq {σ : Type} (E : Engine σ) (env : JNIEnv σ) (w : World σ)
    (thiz : jobject) (context_ptr : Int) :
    Java_com_whispercpp_whisper_WhisperLib_00024Companion_freeContext E env w thiz context_ptr
      = { ext := E.whisper_free w.ext (ptrOfJlong context_ptr),
          trace := w.trace ++ [info "Freeing context",
            Event.whisper_free (ptrOfJlong context_ptr)] } := by
  simp [Java_com_whispercpp_whisper_WhisperLib_00024Companion_freeContext, info, LOGI, World.emit, World.exec]

/-- What `getTextSegmentCount` does. -/
theorem getTextSegmentCount_eq {σ : Type} (E : Engine σ) (env : JNIEnv σ) (w : World σ)
    (thiz : jobject) (context_ptr : Int) :
    Java_com_whispercpp_whisper_WhisperLib_00024Companion_getTextSegmentCount E env w thiz context_ptr
      = ((E.whisper_full_n_segments w.ext (ptrOfJlong context_ptr)).1,
         { ext := (E.whisper_full_n_segments w.ext (ptrOfJlong context_ptr)).2,
           trace := w.trace ++ [info "Getting text segment count",
             Event.whisper_full_n_segments (ptrOfJlong context_ptr)
               (E.whisper_full_n_segments w.ext (ptrOfJlong context_ptr)).1] }) := by
  simp [Java_com_whispercpp_whisper_WhisperLib_00024Companion_getTextSegmentCount, info, LOGI, World.emit, World.call]

/-- What `getTextSegment` does. -/
theorem getTextSegment_eq {σ : Type} (E : Engine σ) (env : JNIEnv σ) (w : World σ)
    (thiz : jobject) (context_ptr index : Int) :
    Java_com_whispercpp_whisper_WhisperLib_00024Companion_getTextSegment E env w thiz context_ptr index
      = ((env.NewStringUTF
            (E.whisper_full_get_segment_text w.ext (ptrOfJlong context_ptr) index).2
            (E.whisper_full_get_segment_text w.ext (ptrOfJlong context_ptr) index).1).1,
         { ext := (env.NewStringUTF
            (E.whisper_full_get_segment_text w.ext (ptrOfJlong context_ptr) index).2
            (E.whisper_full_get_segment_text w.ext (ptrOfJlong context_ptr) index).1).2,
           trace := w.trace ++ [info ("Getting text segment " ++ fmt_d index),
             Event.whisper_full_get_segment_text (ptrOfJlong context_ptr) index
               (E.whisper_full_get_segment_text w.ext (ptrOfJlong context_ptr) index).1,
             Event.NewStringUTF
               (E.whisper_full_get_segment_text w.ext (ptrOfJlong context_ptr) index).1
               (env.NewStringUTF
                 (E.whisper_full_get_segment_text w.ext (ptrOfJlong context_ptr) index).2
                 (E.whisper_full_get_segment_text w.ext (ptrOfJlong context_ptr)
                   index).1).1] }) := by
  simp [Java_com_whispercpp_whisper_WhisperLib_00024Companion_getTextSegment, info, LOGI, World.emit, World.call]

/-- What `getTextSegmentT0` does. -/
theorem getTextSegmentT0_eq {σ : Type} (E : Engine σ) (env : JNIEnv σ) (w : World σ)
    (thiz : jobject) (context_ptr index : Int) :
    Java_com_whispercpp_whisper_WhisperLib_00024Companion_getTextSegmentT0 E env w thiz context_ptr index
      = ((E.whisper_full_get_segment_t0 w.ext (ptrOfJlong context_ptr) index).1,
         { ext := (E.whisper_full_get_segment_t0 w.ext (ptrOfJlong context_ptr) index).2,
           trace := w.trace ++ [info ("Getting text segment T0 for index " ++ fmt_d index),
             Event.whisper_full_get_segment_t0 (ptrOfJlong context_ptr) index
               (E.whisper_full_get_segment_t0 w.ext (ptrOfJlong context_ptr) index).1] }) := by
  simp [Java_com_whispercpp_whisper_WhisperLib_00024Companion_getTextSegmentT0, info, LOGI, World.emit, World.call]

/-- What `getTextSegmentT1` does. -/
theorem getTextSegmentT1_eq {σ : Type} (E : Engine σ) (env : JNIEnv σ) (w : World σ)
    (thiz : jobject) (context_ptr index : Int) :
    Java_com_whispercpp_whisper_WhisperLib_00024Companion_getTextSegmentT1 E env w thiz context_ptr index
      = ((E.whisper_full_get_segment_t1 w.ext (ptrOfJlong context_ptr) index).1,
         { ext := (E.whisper_full_get_segment_t1 w.ext (ptrOfJlong context_ptr) index).2,
           trace := w.trace ++ [info ("Getting text segment T1 for index " ++ fmt_d index),
             Event.whisper_full_get_segment_t1 (ptrOfJlong context_ptr) index
               (E.whisper_full_get_segment_t1 w.ext (ptrOfJlong context_ptr) index).1] }) := by
  simp [Java_com_whispercpp_whisper_WhisperLib_00024Companion_getTextSegmentT1, info, LOGI, World.emit, World.call]

/-- What `getSystemInfo` does. -/
theorem getSystemInfo_eq {σ : Type} (E : Engine σ) (env : JNIEnv σ) (w : World σ)
    (thiz : jobject) :
    Java_com_whispercpp_whisper_WhisperLib_00024Companion_getSystemInfo E env w thiz
      = ((env.NewStringUTF (E.whisper_print_system_info w.ext).2
            (E.whisper_print_system_info w.ext).1).1,
         { ext := (env.NewStringUTF (E.whisper_print_system_info w.ext).2
            (E.whisper_print_system_info w.ext).1).2,
           trace := w.trace ++ [info "Getting system info",
             Event.whisper_print_system_info (E.whisper_print_system_info w.ext).1,
             Event.NewStringUTF (E.whisper_print_system_info w.ext).1
               (env.NewStringUTF (E.whisper_print_system_info w.ext).2
                 (E.whisper_print_system_info w.ext).1).1] }) := by
  simp [Java_com_whispercpp_whisper_WhisperLib_00024Companion_getSystemInfo, info, LOGI, World.emit, World.call]

/-- What `benchMemcpy` does. -/
theorem benchMemcpy_eq {σ : Type} (E : Engine σ) (env : JNIEnv σ) (w : World σ)
    (thiz : jobject) (n_threads : Int) :
    Java_com_whispercpp_whisper_WhisperLib_00024Companion_benchMemcpy E env w thiz n_threads
      = ((env.NewStringUTF (E.whisper_bench_memcpy_str w.ext n_threads).2
            (E.whisper_bench_memcpy_str w.ext n_threads).1).1,
         { ext := (env.NewStringUTF (E.whisper_bench_memcpy_str w.ext n_threads).2
            (E.whisper_bench_memcpy_str w.ext n_threads).1).2,
           trace := w.trace ++
             [info ("Running memcpy benchmark with " ++ fmt_d n_threads ++ " threads"),
              Event.whisper_bench_memcpy_str n_threads
                (E.whisper_bench_memcpy_str w.ext n_threads).1,
              Event.NewStringUTF (E.whisper_bench_memcpy_str w.ext n_threads).1
                (env.NewStringUTF (E.whisper_bench_memcpy_str w.ext n_threads).2
                  (E.whisper_bench_memcpy_str w.ext n_threads).1).1] }) := by
  simp [Java_com_whispercpp_whisper_WhisperLib_00024Companion_benchMemcpy, info, LOGI, World.emit, World.call]

/-- What `benchGgmlMulMat` does. -/
theorem benchGgmlMulMat_eq {σ : Type} (E : Engine σ) (env : JNIEnv σ) (w : World σ)
    (thiz : jobject) (n_threads : Int) :
    Java_com_whispercpp_whisper_WhisperLib_00024Companion_benchGgmlMulMat E env w thiz n_threads
      = ((env.NewStringUTF (E.whisper_bench_ggml_mul_mat_str w.ext n_threads).2
            (E.whisper_bench_ggml_mul_mat_str w.ext n_threads).1).1,
         { ext := (env.NewStringUTF (E.whisper_bench_ggml_mul_mat_str w.ext n_threads).2
            (E.whisper_bench_ggml_mul_mat_str w.ext n_threads).1).2,
           trace := w.trace ++
             [info ("Running GGML matrix multiplication benchmark with "
                ++ fmt_d n_threads ++ " threads"),
              Event.whisper_bench_ggml_mul_mat_str n_threads
                (E.whisper_bench_ggml_mul_mat_str w.ext n_threads).1,
              Event.NewStringUTF (E.whisper_bench_ggml_mul_mat_str w.ext n_threads).1
                (env.NewStringUTF (E.whisper_bench_ggml_mul_mat_str w.ext n_threads).2
                  (E.whisper_bench_ggml_mul_mat_str w.ext n_threads).1).1] }) := by
  simp [Java_com_whispercpp_whisper_WhisperLib_00024Companion_benchGgmlMulMat, info, LOGI, World.emit, World.call]

/-- C6: for every token and index the accessors hand the cast token and the
index, unchanged, to one engine call and return what the engine returns:
the count, the text given to `NewStringUTF`, and the two timestamps; with
the fake engine of scenario S1 they yield count 2 and the two segments in
order. -/
theorem segment_accessors_pass_through {σ : Type} (E : Engine σ) (env : JNIEnv σ)
    (w : World σ) (thiz : jobject) (context_ptr index : Int) :
    ((Java_com_whispercpp_whisper_WhisperLib_00024Companion_getTextSegmentCount E env w thiz context_ptr).1
        = (E.whisper_full_n_segments w.ext (ptrOfJlong context_ptr)).1
      ∧ (Java_com_whispercpp_whisper_WhisperLib_00024Companion_getTextSegmentCount E env w thiz context_ptr).2.trace.filter Event.isEngine
        = w.trace.filter Event.isEngine
          ++ [Event.whisper_full_n_segments (ptrOfJlong context_ptr)
                (E.whisper_full_n_segments w.ext (ptrOfJlong context_ptr)).1])
    ∧ ((Java_com_whispercpp_whisper_WhisperLib_00024Companion_getTextSegment E env w thiz context_ptr index).1
        = (env.NewStringUTF
            (E.whisper_full_get_segment_text w.ext (ptrOfJlong context_ptr) index).2
            (E.whisper_full_get_segment_text w.ext (ptrOfJlong context_ptr) index).1).1
      ∧ (Java_com_whispercpp_whisper_WhisperLib_00024Companion_getTextSegment E env w thiz context_ptr index).2.trace.filter Event.isEngine
        = w.trace.filter Event.isEngine
          ++ [Event.whisper_full_get_segment_text (ptrOfJlong context_ptr) index
                (E.whisper_full_get_segment_text w.ext (ptrOfJlong context_ptr) index).1])
    ∧ ((Java_com_whispercpp_whisper_WhisperLib_00024Companion_getTextSegmentT0 E env w thiz context_ptr index).1
        = (E.whisper_full_get_segment_t0 w.ext (ptrOfJlong context_ptr) index).1
      ∧ (Java_com_whispercpp_whisper_WhisperLib_00024Companion_getTextSegmentT0 E env w thiz context_ptr index).2.trace.filter Event.isEngine
        = w.trace.filter Event.isEngine
          ++ [Event.whisper_full_get_segment_t0 (ptrOfJlong context_ptr) index
                (E.whisper_full_get_segment_t0 w.ext (ptrOfJlong context_ptr) index).1])
    ∧ ((Java_com_whispercpp_whisper_WhisperLib_00024Companion_getTextSegmentT1 E env w thiz context_ptr index).1
        = (E.whisper_full_get_segment_t1 w.ext (ptrOfJlong context_ptr) index).1
      ∧ (Java_com_whispercpp_whisper_WhisperLib_00024Companion_getTextSegmentT1 E env w thiz context_ptr index).2.trace.filter Event.isEngine
        = w.trace.filter Event.isEngine
          ++ [Event.whisper_full_get_segment_t1 (ptrOfJlong context_ptr) index
                (E.whisper_full_get_segment_t1 w.ext (ptrOfJlong context_ptr) index).1])
    ∧ ((Java_com_whispercpp_whisper_WhisperLib_00024Companion_getTextSegmentCount fakeEngineS1 (exampleEnv 0 0)
          (World.start (heapWith [])) 0 10).1 = 2
      ∧ ((Java_com_whispercpp_whisper_WhisperLib_00024Companion_getTextSegment fakeEngineS1 (exampleEnv 0 0) (World.start (heapWith [])) 0
            10 0).1,
         (Java_com_whispercpp_whisper_WhisperLib_00024Companion_getTextSegmentT0 fakeEngineS1 (exampleEnv 0 0) (World.start (heapWith [])) 0
            10 0).1,
         (Java_com_whispercpp_whisper_WhisperLib_00024Companion_getTextSegmentT1 fakeEngineS1 (exampleEnv 0 0) (World.start (heapWith [])) 0
            10 0).1) = (some "hello", 0, 50)
      ∧ ((Java_com_whispercpp_whisper_WhisperLib_00024Companion_getTextSegment fakeEngineS1 (exampleEnv 0 0) (World.start (heapWith [])) 0
            10 1).1,
         (Java_com_whispercpp_whisper_WhisperLib_00024Companion_getTextSegmentT0 fakeEngineS1 (exampleEnv 0 0) (World.start (heapWith [])) 0
            10 1).1,
         (Java_com_whispercpp_whisper_WhisperLib_00024Companion_getTextSegmentT1 fakeEngineS1 (exampleEnv 0 0) (World.start (heapWith [])) 0
            10 1).1) = (some "world", 50, 100)) := by
  rw [getTextSegmentCount_eq, getTextSegment_eq, getTextSegmentT0_eq, getTextSegmentT1_eq]
  refine ⟨⟨rfl, ?_⟩, ⟨rfl, ?_⟩, ⟨rfl, ?_⟩, ⟨rfl, ?_⟩, rfl, rfl, rfl⟩ <;>
    simp [Event.isEngine, info]

/-- C5, as stated, fails: when the engine returns absent strings, each of the
four string-returning entry points calls `NewStringUTF` with the absent
pointer, and with a runtime that answers the null reference to it, returns
the null reference, not an empty string. -/
theorem absent_string_counterexample :
    ((Java_com_whispercpp_whisper_WhisperLib_00024Companion_getTextSegment engineWithAbsentStrings (exampleEnv 0 0)
          (World.start (heapWith [])) 0 4096 0).1 = none
      ∧ (Java_com_whispercpp_whisper_WhisperLib_00024Companion_getTextSegment engineWithAbsentStrings (exampleEnv 0 0)
          (World.start (heapWith [])) 0 4096 0).2.trace.filter Event.isNewString
        = [Event.NewStringUTF none none])
    ∧ ((Java_com_whispercpp_whisper_WhisperLib_00024Companion_getSystemInfo engineWithAbsentStrings (exampleEnv 0 0)
          (World.start (heapWith [])) 0).1 = none
      ∧ (Java_com_whispercpp_whisper_WhisperLib_00024Companion_getSystemInfo engineWithAbsentStrings (exampleEnv 0 0)
          (World.start (heapWith [])) 0).2.trace.filter Event.isNewString
        = [Event.NewStringUTF none none])
    ∧ ((Java_com_whispercpp_whisper_WhisperLib_00024Companion_benchMemcpy engineWithAbsentStrings (exampleEnv 0 0)
          (World.start (heapWith [])) 0 4).1 = none
      ∧ (Java_com_whispercpp_whisper_WhisperLib_00024Companion_benchMemcpy engineWithAbsentStrings (exampleEnv 0 0)
          (World.start (heapWith [])) 0 4).2.trace.filter Event.isNewString
        = [Event.NewStringUTF none none])
    ∧ ((Java_com_whispercpp_whisper_WhisperLib_00024Companion_benchGgmlMulMat engineWithAbsentStrings (exampleEnv 0 0)
          (World.start (heapWith [])) 0 4).1 = none
      ∧ (Java_com_whispercpp_whisper_WhisperLib_00024Companion_benchGgmlMulMat engineWithAbsentStrings (exampleEnv 0 0)
          (World.start (heapWith [])) 0 4).2.trace.filter Event.isNewString
        = [Event.NewStringUTF none none]) := by
  refine ⟨⟨rfl, rfl⟩, ⟨rfl, rfl⟩, ⟨rfl, rfl⟩, ⟨rfl, rfl⟩⟩

/-- C5, amended: each of the four string-returning entry points hands the
string the engine returned, absent or not, to `NewStringUTF`, once, and
returns what `NewStringUTF` returns. -/
theorem string_entry_points_forward_engine_string {σ : Type} (E : Engine σ)
    (env : JNIEnv σ) (w : World σ) (thiz : jobject) (context_ptr index n_threads : Int) :
    (∃ (text : CString) (string : jstring) (s : σ),
      (text, s) = E.whisper_full_get_segment_text w.ext (ptrOfJlong context_ptr) index
      ∧ string = (env.NewStringUTF s text).1
      ∧ (Java_com_whispercpp_whisper_WhisperLib_00024Companion_getTextSegment E env w thiz context_ptr index).1 = string
      ∧ (Java_com_whispercpp_whisper_WhisperLib_00024Companion_getTextSegment E env w thiz context_ptr index).2.trace.filter Event.isNewString
          = w.trace.filter Event.isNewString ++ [Event.NewStringUTF text string])
    ∧ (∃ (text : CString) (string : jstring) (s : σ),
      (text, s) = E.whisper_print_system_info w.ext
      ∧ string = (env.NewStringUTF s text).1
      ∧ (Java_com_whispercpp_whisper_WhisperLib_00024Companion_getSystemInfo E env w thiz).1 = string
      ∧ (Java_com_whispercpp_whisper_WhisperLib_00024Companion_getSystemInfo E env w thiz).2.trace.filter Event.isNewString
          = w.trace.filter Event.isNewString ++ [Event.NewStringUTF text string])
    ∧ (∃ (text : CString) (string : jstring) (s : σ),
      (text, s) = E.whisper_bench_memcpy_str w.ext n_threads
      ∧ string = (env.NewStringUTF s text).1
      ∧ (Java_com_whispercpp_whisper_WhisperLib_00024Companion_benchMemcpy E env w thiz n_threads).1 = string
      ∧ (Java_com_whispercpp_whisper_WhisperLib_00024Companion_benchMemcpy E env w thiz n_threads).2.trace.filter Event.isNewString
          = w.trace.filter Event.isNewString ++ [Event.NewStringUTF text string])
    ∧ (∃ (text : CString) (string : jstring) (s : σ),
      (text, s) = E.whisper_bench_ggml_mul_mat_str w.ext n_threads
      ∧ string = (env.NewStringUTF s text).1
      ∧ (Java_com_whispercpp_whisper_WhisperLib_00024Companion_benchGgmlMulMat E env w thiz n_threads).1 = string
      ∧ (Java_com_whispercpp_whisper_WhisperLib_00024Companion_benchGgmlMulMat E env w thiz n_threads).2.trace.filter Event.isNewString
          = w.trace.filter Event.isNewString ++ [Event.NewStringUTF text string]) := by
  rw [getTextSegment_eq, getSystemInfo_eq, benchMemcpy_eq, benchGgmlMulMat_eq]
  refine ⟨⟨_, _, _, rfl, rfl, rfl, ?_⟩, ⟨_, _, _, rfl, rfl, rfl, ?_⟩,
    ⟨_, _, _, rfl, rfl, rfl, ?_⟩, ⟨_, _, _, rfl, rfl, rfl, ?_⟩⟩ <;>
    simp [Event.isNewString, info]

/-! ## Freeing -/

/-- C8: with the engine of `jni.c`, `freeContext` with token 0 hands the null
pointer to `whisper_free`, which frees nothing: the heap, its live contexts
included, is as before, and the one line written is the `INFO` line of the
entry point. -/
theorem freeContext_zero_is_noop (env : JNIEnv Heap) (w : World Heap) (thiz : jobject) :
    (Java_com_whispercpp_whisper_WhisperLib_00024Companion_freeContext mockEngine env w thiz 0).ext = w.ext
    ∧ (Java_com_whispercpp_whisper_WhisperLib_00024Companion_freeContext mockEngine env w thiz 0).ext.live = w.ext.live
    ∧ (Java_com_whispercpp_whisper_WhisperLib_00024Companion_freeContext mockEngine env w thiz 0).trace
        = w.trace ++ [info "Freeing context", Event.whisper_free NULL]
    ∧ whisper_free w.ext NULL = w.ext := by
  rw [freeContext_eq]
  refine ⟨?_, ?_, ?_, ?_⟩ <;> simp [mockEngine, whisper_free, ptrOfJlong, NULL]

/-! ## Trace output -/

/-- A token produced by the pointer cast is a 64-bit signed integer. -/
theorem jlongOfPtr_range (p : Nat) : -(2 ^ 63) ≤ jlongOfPtr p ∧ jlongOfPtr p < 2 ^ 63 := by
  unfold jlongOfPtr
  split_ifs with h <;> omega

/-- Casting a 64-bit signed token to a pointer and back gives the token. -/
theorem jlongOfPtr_ptrOfJlong (t : Int) (h1 : -(2 ^ 63) ≤ t) (h2 : t < 2 ^ 63) :
    jlongOfPtr (ptrOfJlong t) = t := by
  unfold jlongOfPtr ptrOfJlong
  split_ifs with h <;> omega

/-- The pointer a token casts to is an address of the 64-bit ABI. -/
theorem ptrOfJlong_lt (t : Int) : ptrOfJlong t < 2 ^ 64 := by
  unfold ptrOfJlong
  omega

/-- What `malloc` returns: null and the same allocations, or a fresh
non-null address of the 64-bit ABI, now live. -/
theorem malloc_cases (h : Heap) (size : Nat) :
    ((malloc h size).1 = 0 ∧ (malloc h size).2.live = h.live
      ∧ (malloc h size).2.ub = h.ub)
    ∨ ((malloc h size).1 ≠ 0 ∧ (malloc h size).1 < 2 ^ 64 ∧ (malloc h size).1 ∉ h.live
      ∧ (malloc h size).2.live = insert (malloc h size).1 h.live
      ∧ (malloc h size).2.ub = h.ub) := by
  unfold malloc
  split
  · simp [NULL]
  · split_ifs with hp
    · right; simpa using hp
    · left; simp [NULL]

/-- An initializer of the engine of `jni.c` adds the context it returned, and
nothing else, to the live allocations. -/
theorem liveCount_init (env : JNIEnv Heap) (w : World Heap) (thiz : jobject) (c : InitCall)
    (a : Nat) (ha0 : a ≠ 0) (ha : a < 2 ^ 64) :
    liveCount (c.run mockEngine env w thiz).2.ext.live a
        = liveCount w.ext.live a
          + (if (c.run mockEngine env w thiz).1 = jlongOfPtr a then 1 else 0)
    ∧ (c.run mockEngine env w thiz).2.ext.ub = w.ext.ub := by
  rw [InitCall.run_eq]
  simp only [mockEngine, whisper_init]
  have hz : jlongOfPtr a ≠ 0 := fun h => ha0 ((jlongOfPtr_eq_zero_iff a ha).1 h)
  rcases malloc_cases w.ext sizeof_whisper_context with ⟨h1, h2, h3⟩ | ⟨h1, h2, h3, h4, h5⟩
  · refine ⟨?_, h3⟩
    have hj : jlongOfPtr (malloc w.ext sizeof_whisper_context).1 = 0 := by
      rw [h1]; exact (jlongOfPtr_eq_zero_iff 0 (by norm_num)).2 rfl
    rw [h2]
    simp [hj, Ne.symm hz]
  · refine ⟨?_, h5⟩
    rw [h4]
    by_cases hpa : (malloc w.ext sizeof_whisper_context).1 = a
    · rw [hpa] at h3
      simp [liveCount, hpa, h3]
    · have hne : jlongOfPtr (malloc w.ext sizeof_whisper_context).1 ≠ jlongOfPtr a := by
        intro h
        apply hpa
        rw [← ptrOfJlong_jlongOfPtr _ h2, h, ptrOfJlong_jlongOfPtr _ ha]
      simp [liveCount, hne, Finset.mem_insert, Ne.symm hpa]

/-- The free of a token, by the engine of `jni.c` and without undefined
behaviour, removes the context the token casts to, and nothing else, from
the live allocations. -/
theorem liveCount_free (env : JNIEnv Heap) (w : World Heap) (thiz : jobject) (t : Int)
    (a : Nat) (ha0 : a ≠ 0)
    (hub : (Java_com_whispercpp_whisper_WhisperLib_00024Companion_freeContext mockEngine env w thiz t).ext.ub = false) :
    liveCount (Java_com_whispercpp_whisper_WhisperLib_00024Companion_freeContext mockEngine env w thiz t).ext.live a
        = liveCount w.ext.live a - (if ptrOfJlong t = a then 1 else 0)
    ∧ w.ext.ub = false := by
  rw [freeContext_eq] at hub ⊢
  simp only [mockEngine, whisper_free, free] at hub ⊢
  by_cases hp : ptrOfJlong t = 0
  · have hpa : ptrOfJlong t ≠ a := fun h => ha0 (h ▸ hp)
    simp [hp, Ne.symm ha0] at hub ⊢
    exact hub
  · by_cases hl : ptrOfJlong t ∈ w.ext.live
    · simp [hp, hl] at hub ⊢
      refine ⟨?_, hub⟩
      by_cases hpa : ptrOfJlong t = a
      · rw [hpa] at hl
        simp [liveCount, hpa, hl]
      · simp [liveCount, hpa, Finset.mem_erase, Ne.symm hpa]
    · simp [hp, hl] at hub

/-- Undefined behaviour, once reached, stays: a sequence that ends without it
started without it. -/
theorem runLifecycle_ub (env : JNIEnv Heap) (ops : List LifecycleCall) :
    ∀ w : World Heap, (runLifecycle mockEngine env w ops).2.ext.ub = false →
      w.ext.ub = false := by
  induction ops with
  | nil => intro w h; exact h
  | cons op rest ih =>
    intro w h
    cases op with
    | init thiz c =>
      have h1 := ih _ h
      rw [(liveCount_init env w thiz c 1 (by norm_num) (by norm_num)).2] at h1
      exact h1
    | free thiz t =>
      exact (liveCount_free env w thiz t 1 (by norm_num) (ih _ h)).2

/-- Every token an initializer returned is a 64-bit signed integer. -/
theorem runLifecycle_tokens_range {σ : Type} (E : Engine σ) (env : JNIEnv σ)
    (ops : List LifecycleCall) :
    ∀ w : World σ, ∀ t ∈ (runLifecycle E env w ops).1, -(2 ^ 63) ≤ t ∧ t < 2 ^ 63 := by
  induction ops with
  | nil => intro w t ht; simp [runLifecycle] at ht
  | cons op rest ih =>
    intro w t ht
    cases op with
    | init thiz c =>
      simp only [runLifecycle, List.mem_cons] at ht
      rcases ht with ht | ht
      · rw [ht, InitCall.run_eq]
        exact jlongOfPtr_range _
      · exact ih _ t ht
    | free thiz t1 => exact ih _ t ht

/-- The count of an address of the 64-bit ABI among the live allocations,
after a sequence without undefined behaviour: one more for every initializer
that returned its token, one less for every free of a token that casts to it. -/
theorem runLifecycle_liveCount (env : JNIEnv Heap) (a : Nat) (ha0 : a ≠ 0)
    (ha : a < 2 ^ 64) (ops : List LifecycleCall) :
    ∀ w : World Heap, (runLifecycle mockEngine env w ops).2.ext.ub = false →
      liveCount (runLifecycle mockEngine env w ops).2.ext.live a
        = liveCount w.ext.live a
          + ((runLifecycle mockEngine env w ops).1.count (jlongOfPtr a) : Int)
          - ((freedTokens ops).countP (fun t => decide (ptrOfJlong t = a)) : Int) := by
  induction ops with
  | nil => intro w _; simp [runLifecycle, freedTokens]
  | cons op rest ih =>
    intro w h
    cases op with
    | init thiz c =>
      have h1 := ih _ h
      simp only [runLifecycle, freedTokens] at h1 ⊢
      rw [h1, (liveCount_init env w thiz c a ha0 ha).1, List.count_cons]
      by_cases hc : (c.run mockEngine env w thiz).1 = jlongOfPtr a <;> (simp [hc]; try ring)
    | free thiz t =>
      have h1 := ih _ h
      have h2 := runLifecycle_ub env rest _ h
      simp only [runLifecycle, freedTokens] at h1 ⊢
      rw [h1, (liveCount_free env w thiz t a ha0 h2).1, List.countP_cons]
      by_cases hc : ptrOfJlong t = a <;> (simp [hc]; try ring)

/-- An address that is null or outside the 64-bit ABI is never added to and
never removed from the live allocations. -/
theorem runLifecycle_other (env : JNIEnv Heap) (a : Nat) (ha : a = 0 ∨ 2 ^ 64 ≤ a)
    (ops : List LifecycleCall) :
    ∀ w : World Heap,
      (a ∈ (runLifecycle mockEngine env w ops).2.ext.live ↔ a ∈ w.ext.live) := by
  induction ops with
  | nil => intro w; simp [runLifecycle]
  | cons op rest ih =>
    intro w
    cases op with
    | init thiz c =>
      simp only [runLifecycle]
      rw [ih, InitCall.run_eq]
      simp only [mockEngine, whisper_init]
      rcases malloc_cases w.ext sizeof_whisper_context with ⟨_, h2, _⟩ | ⟨h1, h2, _, h4, _⟩
      · rw [h2]
      · rw [h4, Finset.mem_insert]
        constructor
        · rintro (h | h)
          · exfalso; rcases ha with ha | ha <;> omega
          · exact h
        · exact fun h => Or.inr h
    | free thiz t =>
      simp only [runLifecycle]
      rw [ih, freeContext_eq]
      simp only [mockEngine, whisper_free, free]
      have hlt := ptrOfJlong_lt t
      by_cases hp : ptrOfJlong t = 0
      · simp [hp]
      · by_cases hl : ptrOfJlong t ∈ w.ext.live
        · simp only [hp, hl, ne_eq, not_false_eq_true, if_true, if_false, Finset.mem_erase]
          constructor
          · exact fun h => h.2
          · intro h
            refine ⟨?_, h⟩
            rcases ha with ha | ha <;> omega
        · simp [hp, hl]

/-- A sequence of initializer and free calls that ends without undefined
behaviour and frees every non-zero token as often as an initializer returned
it leaves the live contexts as they were. -/
theorem runLifecycle_balanced (env : JNIEnv Heap) (w : World Heap)
    (ops : List LifecycleCall)
    (hub : (runLifecycle mockEngine env w ops).2.ext.ub = false)
    (hbal : ∀ t : Int, t ≠ 0 →
      (runLifecycle mockEngine env w ops).1.count t = (freedTokens ops).count t) :
    (runLifecycle mockEngine env w ops).2.ext.live = w.ext.live := by
  ext a
  by_cases hr : a = 0 ∨ 2 ^ 64 ≤ a
  · exact runLifecycle_other env a hr ops w
  · have ha0 : a ≠ 0 := fun h => hr (Or.inl h)
    have ha : a < 2 ^ 64 := by
      by_contra h
      exact hr (Or.inr (by omega))
    have hz : jlongOfPtr a ≠ 0 := fun h => ha0 ((jlongOfPtr_eq_zero_iff a ha).1 h)
    have hcount := runLifecycle_liveCount env a ha0 ha ops w hub
    have hfreed : (freedTokens ops).countP (fun t => decide (ptrOfJlong t = a))
        = (freedTokens ops).count (jlongOfPtr a) := by
      rw [List.count, List.countP_congr]
      intro t ht
      have hiff : ptrOfJlong t = a ↔ t = jlongOfPtr a := by
        constructor
        · intro hta
          have ht0 : t ≠ 0 := by
            intro h0
            rw [h0] at hta
            exact ha0 (by simpa [ptrOfJlong] using hta.symm)
          have hmem : t ∈ (runLifecycle mockEngine env w ops).1 := by
            have hpos : 0 < (freedTokens ops).count t := List.count_pos_iff.2 ht
            rw [← hbal t ht0] at hpos
            exact List.count_pos_iff.1 hpos
          have hrange := runLifecycle_tokens_range mockEngine env ops w t hmem
          rw [← hta, jlongOfPtr_ptrOfJlong t hrange.1 hrange.2]
        · intro hta
          rw [hta, ptrOfJlong_jlongOfPtr a ha]
      simp [hiff]
    rw [hfreed, hbal (jlongOfPtr a) hz] at hcount
    have heq : liveCount (runLifecycle mockEngine env w ops).2.ext.live a
        = liveCount w.ext.live a := by
      rw [hcount]; ring
    unfold liveCount at heq
    by_cases h1 : a ∈ (runLifecycle mockEngine env w ops).2.ext.live <;>
      by_cases h2 : a ∈ w.ext.live <;> simp [h1, h2] at heq ⊢

/-- An initializer of the engine of `jni.c` followed by the `freeContext` of
its token: a non-zero token is the token of no context live before, its
context is the one added and the one removed; in every case the live
contexts end as they were, without undefined behaviour. -/
theorem init_then_free (env : JNIEnv Heap) (w : World Heap) (thiz : jobject)
    (c : InitCall) :
    ((c.run mockEngine env w thiz).1 ≠ 0 →
      (∀ a ∈ w.ext.live, a < 2 ^ 64 → jlongOfPtr a ≠ (c.run mockEngine env w thiz).1)
      ∧ ptrOfJlong (c.run mockEngine env w thiz).1 ∉ w.ext.live
      ∧ (c.run mockEngine env w thiz).2.ext.live
          = insert (ptrOfJlong (c.run mockEngine env w thiz).1) w.ext.live
      ∧ (Java_com_whispercpp_whisper_WhisperLib_00024Companion_freeContext mockEngine env (c.run mockEngine env w thiz).2 thiz
            (c.run mockEngine env w thiz).1).ext.live
          = (c.run mockEngine env w thiz).2.ext.live.erase
              (ptrOfJlong (c.run mockEngine env w thiz).1))
    ∧ (Java_com_whispercpp_whisper_WhisperLib_00024Companion_freeContext mockEngine env (c.run mockEngine env w thiz).2 thiz
          (c.run mockEngine env w thiz).1).ext.live = w.ext.live
    ∧ (Java_com_whispercpp_whisper_WhisperLib_00024Companion_freeContext mockEngine env (c.run mockEngine env w thiz).2 thiz
          (c.run mockEngine env w thiz).1).ext.ub = w.ext.ub := by
  rw [freeContext_eq, InitCall.run_eq]
  simp only [mockEngine, whisper_init, whisper_free, free]
  rcases malloc_cases w.ext sizeof_whisper_context with ⟨h1, h2, h3⟩ | ⟨h1, h2, h3, h4, h5⟩
  · have hj : jlongOfPtr (malloc w.ext sizeof_whisper_context).1 = 0 := by
      rw [h1]; exact (jlongOfPtr_eq_zero_iff 0 (by norm_num)).2 rfl
    have hp : ptrOfJlong 0 = 0 := by simp [ptrOfJlong]
    simp [hj, hp, h2, h3]
  · have hp := ptrOfJlong_jlongOfPtr _ h2
    refine ⟨fun _ => ⟨?_, ?_⟩, ?_⟩
    · intro a hmem ha heq
      apply h3
      rw [← ptrOfJlong_jlongOfPtr _ h2, ← heq, ptrOfJlong_jlongOfPtr _ ha]
      exact hmem
    · simp [hp, h1, h4, h3]
    · simp [hp, h1, h4, h5, h3]

/-- A sequence of init/free pairs leaves the live contexts as they were and
brings no undefined behaviour. -/
theorem runPairs_restores (env : JNIEnv Heap) (cs : List (jobject × InitCall)) :
    ∀ w : World Heap, (runPairs mockEngine env w cs).ext.live = w.ext.live
      ∧ (runPairs mockEngine env w cs).ext.ub = w.ext.ub := by
  induction cs with
  | nil => intro w; exact ⟨rfl, rfl⟩
  | cons x rest ih =>
    intro w
    obtain ⟨thiz, c⟩ := x
    simp only [runPairs]
    rw [(ih _).1, (ih _).2]
    exact (init_then_free env w thiz c).2

/-- C4: with the engine of `jni.c` and the live contexts the live
allocations of the heap: a non-zero token returned by an initializer is the
token of no context live before the call, and the `freeContext` of it
removes its context and no other; any sequence of init/free pairs, and any
interleaving of initializer and free calls that stays defined and frees
every non-zero token as often as it was returned, ends with the live
contexts it started with. -/
theorem contexts_unique_freed_exactly_no_leak (env : JNIEnv Heap) (w : World Heap)
    (thiz : jobject) (c : InitCall) (cs : List (jobject × InitCall))
    (ops : List LifecycleCall) :
    ((c.run mockEngine env w thiz).1 ≠ 0 →
      (∀ a ∈ w.ext.live, a < 2 ^ 64 → jlongOfPtr a ≠ (c.run mockEngine env w thiz).1)
      ∧ ptrOfJlong (c.run mockEngine env w thiz).1 ∉ w.ext.live
      ∧ (c.run mockEngine env w thiz).2.ext.live
          = insert (ptrOfJlong (c.run mockEngine env w thiz).1) w.ext.live
      ∧ (Java_com_whispercpp_whisper_WhisperLib_00024Companion_freeContext mockEngine env (c.run mockEngine env w thiz).2 thiz
            (c.run mockEngine env w thiz).1).ext.live
          = (c.run mockEngine env w thiz).2.ext.live.erase
              (ptrOfJlong (c.run mockEngine env w thiz).1)
      ∧ (Java_com_whispercpp_whisper_WhisperLib_00024Companion_freeContext mockEngine env (c.run mockEngine env w thiz).2 thiz
            (c.run mockEngine env w thiz).1).ext.live = w.ext.live)
    ∧ (runPairs mockEngine env w cs).ext.live = w.ext.live
    ∧ ((runLifecycle mockEngine env w ops).2.ext.ub = false →
        (∀ t : Int, t ≠ 0 →
          (runLifecycle mockEngine env w ops).1.count t = (freedTokens ops).count t) →
        (runLifecycle mockEngine env w ops).2.ext.live = w.ext.live) := by
  refine ⟨fun h => ?_, (runPairs_restores env cs w).1, runLifecycle_balanced env w ops⟩
  obtain ⟨h1, h2, _⟩ := init_then_free env w thiz c
  exact ⟨(h1 h).1, (h1 h).2.1, (h1 h).2.2.1, (h1 h).2.2.2, h2⟩

/-- Witness of `contexts_unique_freed_exactly_no_leak`: the allocator proposes
4096 and 8192; the initializer returns the token 4096, and the interleaving
`exampleLifecycle` returns and frees 4096 and 8192. -/
theorem contexts_unique_freed_exactly_no_leak_witness :
    ((InitCall.fromInputStream 1).run mockEngine (exampleEnv 0 0)
        (World.start (heapWith [4096, 8192])) 0).1 ≠ 0
    ∧ (runLifecycle mockEngine (exampleEnv 0 0) (World.start (heapWith [4096, 8192]))
        exampleLifecycle).2.ext.ub = false
    ∧ (∀ t : Int, t ≠ 0 →
        (runLifecycle mockEngine (exampleEnv 0 0) (World.start (heapWith [4096, 8192]))
          exampleLifecycle).1.count t = (freedTokens exampleLifecycle).count t)
    ∧ (Java_com_whispercpp_whisper_WhisperLib_00024Companion_freeContext mockEngine (exampleEnv 0 0)
        ((InitCall.fromInputStream 1).run mockEngine (exampleEnv 0 0)
          (World.start (heapWith [4096, 8192])) 0).2 0
        ((InitCall.fromInputStream 1).run mockEngine (exampleEnv 0 0)
          (World.start (heapWith [4096, 8192])) 0).1).ext.live
        = (World.start (heapWith [4096, 8192])).ext.live
    ∧ (runLifecycle mockEngine (exampleEnv 0 0) (World.start (heapWith [4096, 8192]))
        exampleLifecycle).2.ext.live = (World.start (heapWith [4096, 8192])).ext.live :=
  ⟨by decide, by decide, fun _ _ => rfl,
    ((contexts_unique_freed_exactly_no_leak (exampleEnv 0 0)
      (World.start (heapWith [4096, 8192])) 0 (InitCall.fromInputStream 1) []
      exampleLifecycle).1 (by decide)).2.2.2.2,
    (contexts_unique_freed_exactly_no_leak (exampleEnv 0 0)
      (World.start (heapWith [4096, 8192])) 0 (InitCall.fromInputStream 1) []
      exampleLifecycle).2.2 (by decide) (fun _ _ => rfl)⟩

end WhisperJni
